import Mathlib

/-!
Verification development for the CO2-leakage data pipeline of
webviz-subsurface (plugins/_co2_leakage/_utilities).

The Python sources are shallowly embedded: dataframes become lists of row
structures, the external EnsembleTableProvider (out of scope per the spec)
is abstracted as the data it serves, and numpy/pandas floating-point values
are modelled exactly by `PyFloat`: a rational number or one of the special
values inf, -inf, nan, with IEEE-754 semantics for the operations the code
uses.  Rounding of finite values is exact rational arithmetic; the claims
under study only depend on the special-value behaviour of division by zero,
which IEEE defines exactly.
-/

namespace Co2Spec

attribute [local semireducible] Rat.mul Rat.add Rat.sub Rat.inv

/-- A numpy/pandas float: a rational (exact) or a special value. -/
inductive PyFloat where
  | finite (q : ℚ)
  | inf
  | neginf
  | nan
deriving DecidableEq

/-- IEEE negation. -/
def pfNeg : PyFloat → PyFloat
  | .finite q => .finite (-q)
  | .inf => .neginf
  | .neginf => .inf
  | .nan => .nan

/-- IEEE absolute value. -/
def pfAbs : PyFloat → PyFloat
  | .finite q => .finite |q|
  | .inf => .inf
  | .neginf => .inf
  | .nan => .nan

/-- IEEE addition. -/
def pfAdd : PyFloat → PyFloat → PyFloat
  | .finite a, .finite b => .finite (a + b)
  | .finite _, .inf => .inf
  | .finite _, .neginf => .neginf
  | .inf, .finite _ => .inf
  | .neginf, .finite _ => .neginf
  | .inf, .inf => .inf
  | .neginf, .neginf => .neginf
  | .inf, .neginf => .nan
  | .neginf, .inf => .nan
  | .nan, _ => .nan
  | _, .nan => .nan

/-- IEEE subtraction. -/
def pfSub (a b : PyFloat) : PyFloat := pfAdd a (pfNeg b)

/-- IEEE multiplication. -/
def pfMul : PyFloat → PyFloat → PyFloat
  | .finite a, .finite b => .finite (a * b)
  | .finite a, .inf => if 0 < a then .inf else if a < 0 then .neginf else .nan
  | .finite a, .neginf => if 0 < a then .neginf else if a < 0 then .inf else .nan
  | .inf, .finite b => if 0 < b then .inf else if b < 0 then .neginf else .nan
  | .neginf, .finite b => if 0 < b then .neginf else if b < 0 then .inf else .nan
  | .inf, .inf => .inf
  | .neginf, .neginf => .inf
  | .inf, .neginf => .neginf
  | .neginf, .inf => .neginf
  | .nan, _ => .nan
  | _, .nan => .nan

/-- IEEE division; division of a finite value by zero yields a signed
infinity (or nan for 0/0), exactly as numpy produces. -/
def pfDiv : PyFloat → PyFloat → PyFloat
  | .finite a, .finite b =>
      if b = 0 then (if 0 < a then .inf else if a < 0 then .neginf else .nan)
      else .finite (a / b)
  | .finite _, .inf => .finite 0
  | .finite _, .neginf => .finite 0
  | .inf, .finite b => if 0 ≤ b then .inf else .neginf
  | .neginf, .finite b => if 0 ≤ b then .neginf else .inf
  | .inf, .inf => .nan
  | .inf, .neginf => .nan
  | .neginf, .inf => .nan
  | .neginf, .neginf => .nan
  | .nan, _ => .nan
  | _, .nan => .nan

/-- Round-half-to-even on rationals (the rounding mode of `np.round`). -/
def roundHalfEven (q : ℚ) : ℤ :=
  let f : ℤ := ⌊q⌋
  let r : ℚ := q - f
  if r < 1/2 then f
  else if 1/2 < r then f + 1
  else if 2 ∣ f then f else f + 1

/-- `np.round(x, 2)`: exact on finite values, identity on special values. -/
def pfRound2 : PyFloat → PyFloat
  | .finite q => .finite ((roundHalfEven (q * 100) : ℚ) / 100)
  | x => x

/-- Whether a value is nan. -/
def PyFloat.isNan : PyFloat → Bool
  | .nan => true
  | _ => false

/-- Maximum of two non-nan values (a nan argument is ignored, matching the
`skipna` behaviour of pandas reductions). -/
def pfMax2 : PyFloat → PyFloat → PyFloat
  | .nan, b => b
  | a, .nan => a
  | .inf, _ => .inf
  | _, .inf => .inf
  | .neginf, b => b
  | a, .neginf => a
  | .finite a, .finite b => .finite (max a b)

/-- `pandas.Series.max()`: nan entries are skipped; the maximum of an empty
or all-nan series is nan. -/
def seriesMax (xs : List PyFloat) : PyFloat :=
  match xs.filter (fun x => !x.isNan) with
  | [] => .nan
  | y :: ys => ys.foldl pfMax2 y

/-- Python float equality test (`==`): nan compares unequal to everything. -/
def pfBeq : PyFloat → PyFloat → Bool
  | .finite a, .finite b => a == b
  | .inf, .inf => true
  | .neginf, .neginf => true
  | _, _ => false

/-- Decidable equality of `Except` results (for evaluating claims on
concrete inputs). -/
instance exceptDecEq {ε α : Type _} [DecidableEq ε] [DecidableEq α] :
    DecidableEq (Except ε α) := fun x y =>
  match x, y with
  | .ok a, .ok b =>
      if h : a = b then isTrue (congrArg Except.ok h)
      else isFalse (fun hc => h (by cases hc; rfl))
  | .error a, .error b =>
      if h : a = b then isTrue (congrArg Except.error h)
      else isFalse (fun hc => h (by cases hc; rfl))
  | .ok _, .error _ => isFalse (fun hc => Except.noConfusion hc)
  | .error _, .ok _ => isFalse (fun hc => Except.noConfusion hc)

/-- Python exceptions raised by the embedded code paths.  `keyError` carries
the message payload (a list of column or key names). -/
inductive PyErr where
  | keyError : List String → PyErr
  | assertionError : PyErr
  | indexError : PyErr
  | valueError : PyErr
  | attributeError : PyErr
deriving DecidableEq

/-- `generic.Co2MassScale` (members as referenced by the sources). -/
inductive Co2MassScale where
  | kg
  | mtons
  | normalize
deriving DecidableEq

/-- `generic.Co2VolumeScale` (members as referenced by the sources). -/
inductive Co2VolumeScale where
  | cubic_meters
  | billion_cubic_meters
  | normalize
deriving DecidableEq

/-- `Union[Co2MassScale, Co2VolumeScale]`: a value of one of the two enums.
A mass member never compares equal to a volume member. -/
inductive Co2Scale where
  | mass : Co2MassScale → Co2Scale
  | volume : Co2VolumeScale → Co2Scale
deriving DecidableEq

/-!
## Containment data provider
(`containment_data_provider.py`)

The external `EnsembleTableProvider` is abstracted as the table it serves:
its available column names, its ordered realization list, and its rows.
`get_column_data(cols)` returns all rows, `get_column_data(cols, [r])`
returns the rows of realization `r` (pandas also includes the `REAL`
column, modelled as the `real` field).
-/

/-- A row of the containment csv table, with the provider-added REAL
column.  The `total` column is referenced by the normalization code. -/
structure ContainmentRow where
  real : Int
  date : String
  amount : ℚ
  phase : String
  containment : String
  zone : String
  region : String
  total : ℚ
deriving DecidableEq

/-- The table served by one `EnsembleTableProvider`. -/
structure ContainmentTable where
  columnNames : List String
  reals : List Int
  rows : List ContainmentRow
deriving DecidableEq

/-- A containment row after scaling: only the amount column is touched by
the scaling code, and it may become a special float value. -/
structure ScaledContainmentRow where
  real : Int
  date : String
  amount : PyFloat
  phase : String
  containment : String
  zone : String
  region : String
  total : ℚ
deriving DecidableEq

/-- Inject an unscaled row into the scaled representation. -/
def ContainmentRow.toScaled (r : ContainmentRow) : ScaledContainmentRow :=
  { real := r.real, date := r.date, amount := .finite r.amount,
    phase := r.phase, containment := r.containment,
    zone := r.zone, region := r.region, total := r.total }

/-- `MenuOptions` (TypedDict). -/
structure MenuOptions where
  zones : List String
  regions : List String
  phases : List String
deriving DecidableEq

/-- The required columns checked by `get_menu_options`. -/
def requiredContainmentColumns : List String :=
  ["date", "amount", "phase", "containment", "zone", "region"]

/-- The list-building loop of `get_menu_options`: starting from `init`,
append each value not seen before (first-appearance order). -/
def distinctAppend (init : List String) (vals : List String) : List String :=
  vals.foldl (fun acc v => if v ∈ acc then acc else acc ++ [v]) init

/-- `ContainmentDataProvider.get_menu_options`. -/
def getMenuOptions (t : ContainmentTable) : Except PyErr MenuOptions :=
  match t.reals with
  | [] => .error .indexError
  | r0 :: _ =>
    let df := t.rows.filter (fun row => row.real == r0)
    let missing := requiredContainmentColumns.filter (fun c => !(t.columnNames.contains c))
    if missing.isEmpty then
      let zones := distinctAppend ["all"] (df.map (fun row => row.zone))
      let regions := distinctAppend ["all"] (df.map (fun row => row.region))
      let phases :=
        if (df.map (fun row => row.phase)).contains "free_gas" then
          ["total", "free_gas", "trapped_gas", "aqueous"]
        else ["total", "gas", "aqueous"]
      .ok { zones := if zones.length > 1 then zones else []
          , regions := if regions.length > 1 then regions else []
          , phases := phases }
    else .error (.keyError missing)

/-- `ContainmentDataProvider._find_scale_factor`: 1 for raw scales, 1e9 for
mega scales, and for the normalized scales the maximum of the `total`
column over the whole table (all realizations, all rows). -/
def findScaleFactor (t : ContainmentTable) (scale : Co2Scale) : PyFloat :=
  if scale = .mass .kg ∨ scale = .volume .cubic_meters then .finite 1
  else if scale = .mass .mtons ∨ scale = .volume .billion_cubic_meters then
    .finite 1000000000
  else if scale = .mass .normalize ∨ scale = .volume .normalize then
    seriesMax (t.rows.map (fun r => PyFloat.finite r.total))
  else .finite 1

/-- `ContainmentDataProvider.extract_dataframe`. -/
def extractDataframe (t : ContainmentTable) (realization : Int)
    (scale : Co2Scale) : List ScaledContainmentRow :=
  let df := (t.rows.filter (fun r => r.real == realization)).map
    ContainmentRow.toScaled
  let factor := findScaleFactor t scale
  if pfBeq factor (.finite 1) then df
  else df.map (fun r => { r with amount := pfDiv r.amount factor })

/-- The rows selected by `extract_condensed_dataframe`:
zone == "all" and region == "all". -/
def condensedRows (t : ContainmentTable) : List ContainmentRow :=
  t.rows.filter (fun r => r.zone == "all" && r.region == "all")

/-- The normalization denominator used by `extract_condensed_dataframe`:
the maximum of the `total` column over the condensed rows only. -/
def condensedTotalsMax (t : ContainmentTable) : PyFloat :=
  seriesMax ((condensedRows t).map (fun r => PyFloat.finite r.total))

/-- `ContainmentDataProvider.extract_condensed_dataframe`.  Note: the
scaling branch tests only the two mass-scale members, and the normalized
branch divides by the maximum of the `total` column of the already
condensed dataframe. -/
def extractCondensedDataframe (t : ContainmentTable) (co2Scale : Co2Scale) :
    List ScaledContainmentRow :=
  let dfs := (condensedRows t).map ContainmentRow.toScaled
  match co2Scale with
  | .mass .mtons =>
      dfs.map (fun r => { r with amount := pfDiv r.amount (.finite 1000000000) })
  | .mass .normalize =>
      dfs.map (fun r => { r with amount := pfDiv r.amount (condensedTotalsMax t) })
  | _ => dfs

/-!
## Summary (UNSMRY) data
(`unsmry_data_provider.py` and `summary_graphs.py`)
-/

/-- `_ColumnNames`: the resolved column names of one naming convention. -/
structure ColumnNames where
  time : String
  dissolved : String
  trapped : String
  mobile : String
deriving DecidableEq

/-- The values of the dataclass, in field order. -/
def ColumnNames.values (c : ColumnNames) : List String :=
  [c.time, c.dissolved, c.trapped, c.mobile]

/-- The PFLOTRAN naming convention. -/
def pflotranColumns : ColumnNames :=
  { time := "DATE", dissolved := "FGMDS", trapped := "FGMTR", mobile := "FGMGP" }

/-- The Eclipse naming convention. -/
def eclipseColumns : ColumnNames :=
  { time := "DATE", dissolved := "FWCD", trapped := "FGCDI", mobile := "FGCDM" }

/-- `set(xs).issubset(set(ys))`. -/
def subsetOf (xs ys : List String) : Bool :=
  xs.all (fun x => ys.contains x)

/-- `UnsmryDataProvider._column_subset_unsmry`: try the PFLOTRAN tuple,
then the Eclipse tuple; otherwise a KeyError listing the available
columns. -/
def columnSubsetUnsmry (existing : List String) : Except PyErr ColumnNames :=
  if subsetOf pflotranColumns.values existing then .ok pflotranColumns
  else if subsetOf eclipseColumns.values existing then .ok eclipseColumns
  else .error (.keyError existing)

/-- `summary_graphs._column_subset_unsmry`: same as above but preceded by
`assert "DATE" in existing`, which raises a bare AssertionError when the
DATE column is absent. -/
def columnSubsetUnsmryGraphs (existing : List String) : Except PyErr ColumnNames :=
  if existing.contains "DATE" then
    if subsetOf pflotranColumns.values existing then .ok pflotranColumns
    else if subsetOf eclipseColumns.values existing then .ok eclipseColumns
    else .error (.keyError existing)
  else .error .assertionError

/-- A source row of the summary table for one realization, keyed by the
roles resolved by the column convention (the provider itself is the
external collaborator; it serves the requested columns). -/
structure UnsmrySrcRow where
  date : String
  dissolved : ℚ
  trapped : ℚ
  mobile : ℚ
deriving DecidableEq

/-- The summary table served by one `EnsembleTableProvider`:
`columnNames` is `column_names()`, `reals` is `realizations()`, and
`rows r` is `get_column_data(columns, [r])` keyed by role. -/
structure UnsmryProviderData where
  columnNames : List String
  reals : List Int
  rows : Int → List UnsmrySrcRow

/-- A row of the concatenated summary dataframe.  The provider-added REAL
column and the assigned `realization` column always coincide and are
modelled as the single field `real`. -/
structure UnsmryDfRow where
  real : Int
  date : String
  dissolved : PyFloat
  trapped : PyFloat
  mobile : PyFloat
  total : PyFloat
deriving DecidableEq

/-- The amount columns of the concatenated dataframe. -/
inductive UnsmryCol where
  | dissolved
  | trapped
  | mobile
  | total
deriving DecidableEq

/-- Read one column of a row. -/
def UnsmryDfRow.get (r : UnsmryDfRow) : UnsmryCol → PyFloat
  | .dissolved => r.dissolved
  | .trapped => r.trapped
  | .mobile => r.mobile
  | .total => r.total

/-- Overwrite one column of a row. -/
def UnsmryDfRow.set (r : UnsmryDfRow) : UnsmryCol → PyFloat → UnsmryDfRow
  | .dissolved, v => { r with dissolved := v }
  | .trapped, v => { r with trapped := v }
  | .mobile, v => { r with mobile := v }
  | .total, v => { r with total := v }

/-- The `pd.concat` over realizations followed by the derivation of the
`total` column (`total = dissolved + trapped + mobile`, never stored). -/
def unsmryConcat (p : UnsmryProviderData) : List UnsmryDfRow :=
  (p.reals.map (fun real => (p.rows real).map (fun r =>
    { real := real, date := r.date,
      dissolved := .finite r.dissolved, trapped := .finite r.trapped,
      mobile := .finite r.mobile,
      total := .finite (r.dissolved + r.trapped + r.mobile) : UnsmryDfRow }))).flatten

/-- One iteration of the scaling loop of `summary_graphs._read_dataframe`:
for MTONS divide the column by 1e9; for NORMALIZE divide it by
`full["total"].max()` recomputed at that iteration; otherwise leave the
dataframe unchanged. -/
def scaleColumnStep (scale : Co2Scale) (df : List UnsmryDfRow)
    (col : UnsmryCol) : List UnsmryDfRow :=
  match scale with
  | .mass .mtons =>
      df.map (fun r => r.set col (pfDiv (r.get col) (.finite 1000000000)))
  | .mass .normalize =>
      let m := seriesMax (df.map (fun r => r.get .total))
      df.map (fun r => r.set col (pfDiv (r.get col) m))
  | _ => df

/-- `summary_graphs._read_dataframe`: concatenate, derive `total`, then
scale the columns dissolved, trapped, mobile, total in that order. -/
def readDataframe (p : UnsmryProviderData) (scale : Co2Scale) :
    List UnsmryDfRow :=
  let df0 := unsmryConcat p
  let df1 := scaleColumnStep scale df0 .dissolved
  let df2 := scaleColumnStep scale df1 .trapped
  let df3 := scaleColumnStep scale df2 .mobile
  scaleColumnStep scale df3 .total

/-- One iteration of the scaling loop of `UnsmryDataProvider.extract`,
which uses the `total_max` value computed once before the loop. -/
def extractScaleStep (scale : Co2Scale) (totalMax : PyFloat)
    (df : List UnsmryDfRow) (col : UnsmryCol) : List UnsmryDfRow :=
  match scale with
  | .mass .mtons =>
      df.map (fun r => r.set col (pfDiv (r.get col) (.finite 1000000000)))
  | .mass .normalize =>
      df.map (fun r => r.set col (pfDiv (r.get col) totalMax))
  | _ => df

/-- `UnsmryDataProvider.extract`: concatenate, derive the TOTAL column,
take `total_max` over the whole unscaled dataframe, then scale the
columns dissolved, trapped, mobile, TOTAL in that order. -/
def unsmryExtract (p : UnsmryProviderData) (scale : Co2Scale) :
    List UnsmryDfRow :=
  let full := unsmryConcat p
  let totalMax := seriesMax (full.map (fun r => r.get .total))
  let df1 := extractScaleStep scale totalMax full .dissolved
  let df2 := extractScaleStep scale totalMax df1 .trapped
  let df3 := extractScaleStep scale totalMax df2 .mobile
  extractScaleStep scale totalMax df3 .total

/-!
## Summary cross-validation figure
(`summary_graphs.generate_summary_figure`)
-/

/-- `min(series)` over a dataframe column; empty input raises ValueError. -/
def listMinInt : List Int → Except PyErr Int
  | [] => .error .valueError
  | x :: xs => .ok (xs.foldl min x)

/-- `series.iloc[-1]`: the last element; empty input raises IndexError. -/
def lastElem : List PyFloat → Except PyErr PyFloat
  | [] => .error .indexError
  | [x] => .ok x
  | _ :: x :: xs => lastElem (x :: xs)

/-- `df_unsmry[df_unsmry.REAL == rMin][col].iloc[-1]`. -/
def unsmryLastOf (df : List UnsmryDfRow) (rMin : Int) (col : UnsmryCol) :
    Except PyErr PyFloat :=
  lastElem ((df.filter (fun r => r.real == rMin)).map (fun r => r.get col))

/-- The amounts of the containment reference realization restricted to one
phase: `containment_reference[containment_reference["phase"] == ph]["amount"]`. -/
def containmentLastOf (df : List ScaledContainmentRow) (rMin : Int)
    (phase : String) : Except PyErr PyFloat :=
  lastElem (((df.filter (fun r => r.real == rMin)).filter
    (fun r => r.phase == phase)).map (fun r => r.amount))

/-- Lines 43-56 of `summary_graphs.py`:
`np.round(100.0 * abs(containment - summary) / summary, 2)`.
There is no zero test: a zero summary value produces inf or nan. -/
def lastErrPercentage (containmentLast summaryLast : PyFloat) : PyFloat :=
  pfRound2 (pfDiv (pfMul (.finite 100) (pfAbs (pfSub containmentLast summaryLast)))
    summaryLast)

/-- The `_col_names` keys of the dashed-trace loop; a containment phase
outside this set raises KeyError when the loop looks it up. -/
def phaseKnown (p : String) : Bool :=
  ["total", "free_gas", "aqueous", "trapped_gas"].contains p

/-- The data payload of the figure built by `generate_summary_figure`:
the two source dataframes that feed the traces, and the three rounded
percentage errors embedded in the legend-group titles. -/
structure SummaryFig where
  dfUnsmry : List UnsmryDfRow
  dfContainment : List ScaledContainmentRow
  totalErrPct : PyFloat
  mobileErrPct : PyFloat
  dissolvedErrPct : PyFloat
deriving DecidableEq

/-- `generate_summary_figure`: resolve the column convention, build both
dataframes, take `r_min = min(df_unsmry.REAL)`, read the last value of
each series of that realization from each source, compute the three
percentage errors, and assemble the figure (the trace loops only reorganise
the two dataframes; their only failure mode, an unknown containment phase,
is checked last, in loop position). -/
def generateSummaryFigure (pu : UnsmryProviderData) (scale : Co2Scale)
    (tc : ContainmentTable) : Except PyErr SummaryFig :=
  match columnSubsetUnsmryGraphs pu.columnNames with
  | .error e => .error e
  | .ok _cols =>
    let dfUnsmry := readDataframe pu scale
    let dfContainment := extractCondensedDataframe tc scale
    match listMinInt (dfUnsmry.map (fun r => r.real)) with
    | .error e => .error e
    | .ok rMin =>
      match unsmryLastOf dfUnsmry rMin .total with
      | .error e => .error e
      | .ok unsmryLastTotal =>
        match unsmryLastOf dfUnsmry rMin .mobile with
        | .error e => .error e
        | .ok unsmryLastMobile =>
          match unsmryLastOf dfUnsmry rMin .dissolved with
          | .error e => .error e
          | .ok unsmryLastDissolved =>
            match containmentLastOf dfContainment rMin "total" with
            | .error e => .error e
            | .ok containmentLastTotal =>
              match containmentLastOf dfContainment rMin "free_gas" with
              | .error e => .error e
              | .ok containmentLastMobile =>
                match containmentLastOf dfContainment rMin "aqueous" with
                | .error e => .error e
                | .ok containmentLastDissolved =>
                  if dfContainment.all (fun r => phaseKnown r.phase) then
                    .ok { dfUnsmry := dfUnsmry
                        , dfContainment := dfContainment
                        , totalErrPct :=
                            lastErrPercentage containmentLastTotal unsmryLastTotal
                        , mobileErrPct :=
                            lastErrPercentage containmentLastMobile unsmryLastMobile
                        , dissolvedErrPct :=
                            lastErrPercentage containmentLastDissolved
                              unsmryLastDissolved }
                  else
                    .error (.keyError ((dfContainment.filter
                      (fun r => !phaseKnown r.phase)).map (fun r => r.phase)))

/-- Project the total-error percentage out of a figure result (`none` when
the computation raised). -/
def figTotalErr : Except PyErr SummaryFig → Option PyFloat
  | .ok f => some f.totalErrPct
  | .error _ => none

/-!
## Surface address derivation
(`callbacks.derive_surface_address`)
-/

/-- `generic.MapAttribute` (members as referenced by the sources). -/
inductive MapAttribute where
  | migration_time_sgas
  | migration_time_amfg
  | max_sgas
  | max_amfg
  | sgas_plume
  | amfg_plume
  | mass
  | dissolved
  | free
deriving DecidableEq

/-- `SimulatedSurfaceAddress`. -/
structure SimulatedSurfaceAddress where
  «attribute» : String
  name : String
  datestr : Option String
  realization : Int
deriving DecidableEq

/-- `StatisticalSurfaceAddress` (the statistic is carried as the string
passed to the `SurfaceStatistic` constructor). -/
structure StatisticalSurfaceAddress where
  «attribute» : String
  name : String
  datestr : Option String
  statistic : String
  realizations : List Int
deriving DecidableEq

/-- `TruncatedSurfaceAddress` (`surface_publishing.py`). -/
structure TruncatedSurfaceAddress where
  name : String
  datestr : String
  realizations : List Int
  basis_attribute : String
  threshold : ℚ
  smoothing : ℚ
deriving DecidableEq

/-- `Union[SurfaceAddress, TruncatedSurfaceAddress]`. -/
inductive DerivedSurfaceAddress where
  | simulated : SimulatedSurfaceAddress → DerivedSurfaceAddress
  | statistical : StatisticalSurfaceAddress → DerivedSurfaceAddress
  | truncated : TruncatedSurfaceAddress → DerivedSurfaceAddress
deriving DecidableEq

/-- The date carried by a derived address (`datestr` of each variant). -/
def DerivedSurfaceAddress.dateOf : DerivedSurfaceAddress → Option String
  | .simulated a => a.datestr
  | .statistical a => a.datestr
  | .truncated a => some a.datestr

/-- The `contour_data` dictionary (threshold and smoothing entries); the
Python `None`-or-empty dictionary is the `none` case. -/
structure ContourData where
  threshold : ℚ
  smoothing : ℚ
deriving DecidableEq

/-- `contour_data["threshold"] if contour_data else 0.0`. -/
def contourThreshold : Option ContourData → ℚ
  | some c => c.threshold
  | none => 0

/-- `contour_data["smoothing"] if contour_data else 0.0`. -/
def contourSmoothing : Option ContourData → ℚ
  | some c => c.smoothing
  | none => 0

/-- `callbacks.derive_surface_address`.  The attribute-name mapping is the
plugin-construction dictionary, total over the attributes it is consulted
for. -/
def deriveSurfaceAddress (surfaceName : String) (attr : MapAttribute)
    (date : Option String) (realization : List Int)
    (mapAttributeNames : MapAttribute → String) (statistic : String)
    (contourData : Option ContourData) :
    Except PyErr DerivedSurfaceAddress :=
  if attr = .sgas_plume ∨ attr = .amfg_plume then
    match date with
    | none => .error .assertionError
    | some d =>
      let basis : MapAttribute :=
        if attr = .sgas_plume then .max_sgas else .max_amfg
      .ok (.truncated
        { name := surfaceName
        , datestr := d
        , realizations := realization
        , basis_attribute := mapAttributeNames basis
        , threshold := contourThreshold contourData
        , smoothing := contourSmoothing contourData })
  else
    let date2 : Option String :=
      if attr = .migration_time_sgas ∨ attr = .migration_time_amfg
      then none else date
    match realization with
    | [r] =>
      .ok (.simulated
        { «attribute» := mapAttributeNames attr
        , name := surfaceName
        , datestr := date2
        , realization := r })
    | _ =>
      .ok (.statistical
        { «attribute» := mapAttributeNames attr
        , name := surfaceName
        , datestr := date2
        , statistic := statistic
        , realizations := realization })

/-!
## Ensemble polygon provider
(`ensemble_polygon_provider.py`)

The filesystem is a map from file names to `Csv` contents; a name mapped to
`none` raises OSError on open (`read_csv`).  `realization_paths` (from
`_misc.py`, which only enumerates each realization root directory on disk)
is abstracted as the association list it produces.
-/

/-- A parsed csv file: column names and rows of numeric values aligned with
the columns. -/
structure Csv where
  columns : List String
  rows : List (List ℚ)
deriving DecidableEq

/-- The values of one named column. -/
def Csv.colVals (c : Csv) (nm : String) : Option (List ℚ) :=
  match c.columns.findIdx? (fun s => s == nm) with
  | none => none
  | some i => some (c.rows.map (fun r => r.getD i 0))

/-- The geometry of the single feature of the produced FeatureCollection:
`Polygon` coordinates are `[ring]`, `MultiPolygon` coordinates are a list
of `[ring]` entries; each point is the row list produced by `tolist()`. -/
inductive GeoJsonFC where
  | polygon (coords : List (List (List ℚ)))
  | multiPolygon (coords : List (List (List (List ℚ))))
deriving DecidableEq

/-- Insertion sort on rationals (for the sorted group keys of
`df.groupby("POLY_ID")`). -/
def insertRat (x : ℚ) : List ℚ → List ℚ
  | [] => [x]
  | y :: ys => if x ≤ y then x :: y :: ys else y :: insertRat x ys

/-- Sort a list of rationals ascending. -/
def sortRats (xs : List ℚ) : List ℚ := xs.foldr insertRat []

/-- Distinct values in first-appearance order. -/
def distinctRats (xs : List ℚ) : List ℚ :=
  xs.foldl (fun acc v => if v ∈ acc then acc else acc ++ [v]) []

/-- `_parse_polygon_file`: OSError on open maps to `None`; otherwise the
coordinate columns are detected by fixed priority (`x`/`y`, then
`X_UTME`/`Y_UTMN` with optional `POLY_ID` grouping, then the first two
value columns).  A present `x` or `X_UTME` column with a missing partner
column raises KeyError (only OSError is caught). -/
def parsePolygonFile (fs : String → Option Csv) (filename : String) :
    Except PyErr (Option GeoJsonFC) :=
  match fs filename with
  | none => .ok none
  | some df =>
    if df.columns.contains "x" then
      match df.colVals "x", df.colVals "y" with
      | some xs, some ys =>
        .ok (some (.polygon [(xs.zip ys).map (fun p => [p.1, p.2])]))
      | _, _ => .error (.keyError ["y"])
    else if df.columns.contains "X_UTME" then
      if df.columns.contains "POLY_ID" then
        match df.colVals "X_UTME", df.colVals "Y_UTMN", df.colVals "POLY_ID" with
        | some xs, some ys, some ids =>
          let pts := ids.zip ((xs.zip ys).map (fun p => [p.1, p.2]))
          let keys := sortRats (distinctRats ids)
          .ok (some (.multiPolygon (keys.map (fun k =>
            [pts.filterMap (fun q => if q.1 = k then some q.2 else none)]))))
        | _, _, _ => .error (.keyError ["Y_UTMN"])
      else
        match df.colVals "X_UTME", df.colVals "Y_UTMN" with
        | some xs, some ys =>
          .ok (some (.polygon [(xs.zip ys).map (fun p => [p.1, p.2])]))
        | _, _ => .error (.keyError ["Y_UTMN"])
    else
      .ok (some (.polygon [df.rows.map (fun r => r.take 2)]))

/-- The configured polygon source path. -/
structure PolyPath where
  isAbsolute : Bool
  path : String
deriving DecidableEq

/-- `Path(r) / pp` for a relative `pp`. -/
def joinPath (root rel : String) : String := root ++ "/" ++ rel

/-- The state of a constructed `EnsemblePolygonProvider`. -/
structure EnsemblePolygonProvider where
  layerName : String
  layerId : String
  layerColor : List Int
  absolutePolygon : Option GeoJsonFC
  perRealPolygons : Option (List (Int × Option GeoJsonFC))
deriving DecidableEq

/-- The per-realization dictionary comprehension: parse each realization's
file in order, propagating the first uncaught exception. -/
def mapEntries (fs : String → Option Csv) (polyRel : String) :
    List (Int × String) → Except PyErr (List (Int × Option GeoJsonFC))
  | [] => .ok []
  | pr :: rest =>
    match parsePolygonFile fs (joinPath pr.2 polyRel) with
    | .error e => .error e
    | .ok g =>
      match mapEntries fs polyRel rest with
      | .error e => .error e
      | .ok m => .ok ((pr.1, g) :: m)

/-- `EnsemblePolygonProvider.__init__`: an absolute path is parsed once;
a relative path is parsed per realization root. -/
def mkEnsemblePolygonProvider (fs : String → Option Csv)
    (realizationPaths : List (Int × String)) (polyPath : PolyPath)
    (layerName layerId : String) (layerColor : List Int) :
    Except PyErr EnsemblePolygonProvider :=
  if polyPath.isAbsolute then
    match parsePolygonFile fs polyPath.path with
    | .error e => .error e
    | .ok g =>
      .ok { layerName := layerName, layerId := layerId,
            layerColor := layerColor,
            absolutePolygon := g, perRealPolygons := none }
  else
    match mapEntries fs polyPath.path realizationPaths with
    | .error e => .error e
    | .ok m =>
      .ok { layerName := layerName, layerId := layerId,
            layerColor := layerColor,
            absolutePolygon := none, perRealPolygons := some m }

/-- `dict.get(realization, None)` on the per-realization dictionary. -/
def assocGet (m : List (Int × Option GeoJsonFC)) (k : Int) :
    Option (Option GeoJsonFC) :=
  (m.find? (fun p => p.1 == k)).map (fun p => p.2)

/-- The dictionary returned by `geojson_layer`. -/
structure GeoJsonLayer where
  layerType : String
  name : String
  id : String
  data : GeoJsonFC
  stroked : Bool
  getFillColor : List Int
  visible : Bool
deriving DecidableEq

/-- Assemble the layer dictionary from a geometry. -/
def mkGeoJsonLayer (p : EnsemblePolygonProvider) (data : GeoJsonFC) :
    GeoJsonLayer :=
  { layerType := "GeoJsonLayer", name := p.layerName, id := p.layerId,
    data := data, stroked := false, getFillColor := p.layerColor,
    visible := true }

/-- `EnsemblePolygonProvider.geojson_layer`.  When `_absolute_polygon` is
`None` (also the case for an absolute path whose file was missing) the code
falls through to `self._per_real_polygons.get(...)`, which raises
AttributeError when that field is `None` too. -/
def geojsonLayer (p : EnsemblePolygonProvider) (realization : Int) :
    Except PyErr (Option GeoJsonLayer) :=
  match p.absolutePolygon with
  | some d => .ok (some (mkGeoJsonLayer p d))
  | none =>
    match p.perRealPolygons with
    | none => .error .attributeError
    | some m =>
      match (assocGet m realization).getD none with
      | none => .ok none
      | some d => .ok (some (mkGeoJsonLayer p d))

/-!
## Support definitions for the claims

Characterisations stated by the spec (for comparison with the code), small
projection helpers, and concrete example data used by counterexamples and
witnesses.
-/

/-- `init_map_attribute_names(None)`: the default attribute-name mapping of
`initialization.py` (totalised; the plume attributes are never looked up by
the code paths under study, since the plume branch consults the basis
attribute instead). -/
def defaultMapAttributeNames : MapAttribute → String
  | .migration_time_sgas => "migrationtime_sgas"
  | .migration_time_amfg => "migrationtime_amfg"
  | .max_sgas => "max_sgas"
  | .max_amfg => "max_amfg"
  | .mass => "co2-mass-total"
  | .dissolved => "co2-mass-aqu-phase"
  | .free => "co2-mass-gas-phase"
  | .sgas_plume => "max_sgas"
  | .amfg_plume => "max_amfg"

/-- The date of a derived address result (`none` when the derivation
raised). -/
def addressDate : Except PyErr DerivedSurfaceAddress → Option (Option String)
  | .ok a => some a.dateOf
  | .error _ => none

/-- The result of numpy division of a finite value by zero, by sign. -/
def divByZero (a : ℚ) : PyFloat :=
  if 0 < a then .inf else if a < 0 then .neginf else .nan

/-- The rows of the realization inspected by `get_menu_options`. -/
def firstRealRows (t : ContainmentTable) (r0 : Int) : List ContainmentRow :=
  t.rows.filter (fun row => row.real == r0)

/-- The menu-list rule actually implemented by `get_menu_options`: empty
when every value equals "all" (or no rows exist); otherwise "all" followed
by the distinct non-"all" values in first-appearance order. -/
def menuListRule (vals : List String) : List String :=
  if vals.all (fun v => v == "all") then []
  else "all" :: distinctAppend [] (vals.filter (fun v => !(v == "all")))

/-- The normalization denominator of the summary dataframes: the maximum of
the derived total column over the entire unscaled dataset. -/
def unsmryTotalsMax (p : UnsmryProviderData) : PyFloat :=
  seriesMax ((unsmryConcat p).map (fun r => r.get .total))

/-- Divide every amount column of a summary row by `m`. -/
def normRow (m : PyFloat) (r : UnsmryDfRow) : UnsmryDfRow :=
  { real := r.real, date := r.date,
    dissolved := pfDiv r.dissolved m, trapped := pfDiv r.trapped m,
    mobile := pfDiv r.mobile m, total := pfDiv r.total m }

/-- The reference realization prescribed by the spec sentence, stated from
the spec for comparison with the code: the minimum realization ID present
in both the summary and the containment dataframes. -/
def specReferenceRealization (dfU : List UnsmryDfRow)
    (dfC : List ScaledContainmentRow) : Except PyErr Int :=
  listMinInt ((dfU.map (fun r => r.real)).filter
    (fun r => (dfC.map (fun c => c.real)).contains r))

/-- Apply `geojson_layer` to a constructed provider (propagating a
construction failure). -/
def layerOfProvider (e : Except PyErr EnsemblePolygonProvider) (r : Int) :
    Except PyErr (Option GeoJsonLayer) :=
  match e with
  | .ok p => geojsonLayer p r
  | .error err => .error err

/-- The usual containment column set served by the csv files. -/
def containmentColumnSet : List String :=
  ["date", "amount", "phase", "containment", "zone", "region", "total", "REAL"]

/-- A containment row builder for the example tables. -/
def mkCRow (real : Int) (amount : ℚ) (phase zone region : String)
    (total : ℚ) : ContainmentRow :=
  { real := real, date := "2020-01-01", amount := amount, phase := phase,
    containment := "contained", zone := zone, region := region,
    total := total }

/-- C1 example: a summary provider whose only realization has a final
total of zero. -/
def c1Pu : UnsmryProviderData :=
  { columnNames := ["DATE", "FGMDS", "FGMTR", "FGMGP"],
    reals := [1],
    rows := fun r =>
      if r = 1 then
        [{ date := "2020-01-01", dissolved := 0, trapped := 0, mobile := 0 }]
      else [] }

/-- C1 example: a containment table with a nonzero final total for the
same realization. -/
def c1Tc : ContainmentTable :=
  { columnNames := containmentColumnSet,
    reals := [1],
    rows := [ mkCRow 1 105 "total" "all" "all" 105
            , mkCRow 1 5 "free_gas" "all" "all" 105
            , mkCRow 1 100 "aqueous" "all" "all" 105 ] }

/-- C2 example: a table whose `total` column is identically zero. -/
def c2Table : ContainmentTable :=
  { columnNames := containmentColumnSet,
    reals := [0],
    rows := [ mkCRow 0 5 "total" "all" "all" 0
            , mkCRow 0 (-3) "total" "z1" "all" 0 ] }

/-- C3 example: a summary provider with realizations 1 and 2. -/
def c3Pu : UnsmryProviderData :=
  { columnNames := ["DATE", "FGMDS", "FGMTR", "FGMGP"],
    reals := [1, 2],
    rows := fun r =>
      if r = 1 then
        [{ date := "2020-01-01", dissolved := 1, trapped := 2, mobile := 3 }]
      else if r = 2 then
        [{ date := "2020-01-01", dissolved := 2, trapped := 3, mobile := 4 }]
      else [] }

/-- C3 example: a containment table holding realization 2 only, so that
the only realization present in both datasets is 2. -/
def c3Tc : ContainmentTable :=
  { columnNames := containmentColumnSet,
    reals := [2],
    rows := [ mkCRow 2 9 "total" "all" "all" 9
            , mkCRow 2 4 "free_gas" "all" "all" 9
            , mkCRow 2 2 "aqueous" "all" "all" 9 ] }

/-- C3 witness example: summary realizations 1 and 2. -/
def c3wPu : UnsmryProviderData :=
  { columnNames := ["DATE", "FGMDS", "FGMTR", "FGMGP"],
    reals := [1, 2],
    rows := fun r =>
      if r = 1 then
        [{ date := "2020-01-01", dissolved := 1, trapped := 2, mobile := 3 }]
      else if r = 2 then
        [{ date := "2020-01-01", dissolved := 2, trapped := 3, mobile := 4 }]
      else [] }

/-- C3 witness example: containment rows for realizations 1 and 2. -/
def c3wTc : ContainmentTable :=
  { columnNames := containmentColumnSet,
    reals := [1, 2],
    rows := [ mkCRow 1 7 "total" "all" "all" 7
            , mkCRow 1 4 "free_gas" "all" "all" 7
            , mkCRow 1 2 "aqueous" "all" "all" 7
            , mkCRow 2 9 "total" "all" "all" 9
            , mkCRow 2 5 "free_gas" "all" "all" 9
            , mkCRow 2 3 "aqueous" "all" "all" 9 ] }

/-- C4 example: the condensed subset has maximal total 2, the whole table
has maximal total 8. -/
def c4Table : ContainmentTable :=
  { columnNames := containmentColumnSet,
    reals := [0],
    rows := [ mkCRow 0 2 "total" "all" "all" 2
            , mkCRow 0 8 "total" "zA" "all" 8 ] }

/-- C7 example: a single distinct zone value that is not "all". -/
def c7Table : ContainmentTable :=
  { columnNames := containmentColumnSet,
    reals := [0],
    rows := [ mkCRow 0 1 "total" "z1" "all" 1 ] }

/-- C7 witness example: two zones besides "all", one region. -/
def c7wTable : ContainmentTable :=
  { columnNames := containmentColumnSet,
    reals := [0],
    rows := [ mkCRow 0 1 "total" "all" "all" 1
            , mkCRow 0 2 "total" "z1" "all" 2
            , mkCRow 0 3 "free_gas" "z2" "all" 3 ] }

/-- C10 example: one condensed row with amount 2 and total 2, so the
volume-normalize factor is 2. -/
def c10Table : ContainmentTable :=
  { columnNames := containmentColumnSet,
    reals := [0],
    rows := [ mkCRow 0 2 "total" "all" "all" 2 ] }

/-- C9 example: an absolute polygon path. -/
def c9AbsPath : PolyPath := { isAbsolute := true, path := "/abs/poly.csv" }

/-- C9 example: a filesystem with no files at all. -/
def c9EmptyFs : String → Option Csv := fun _ => none

/-- C9 example: the provider built from an absolute path whose file is
missing. -/
def c9AbsProvider : Except PyErr EnsemblePolygonProvider :=
  mkEnsemblePolygonProvider c9EmptyFs [] c9AbsPath "Hazardous Polygon"
    "hazardous-boundary-layer" [200, 0, 0, 120]

/-- C9 witness example: a filesystem holding realization 1's polygon file
and nothing else. -/
def c9Fs : String → Option Csv := fun f =>
  if f = "root1/poly.csv" then
    some { columns := ["x", "y"], rows := [[0, 0], [1, 0], [0, 1]] }
  else none

/-- C9 witness example: realization roots for realizations 1 and 3. -/
def c9Rp : List (Int × String) := [(1, "root1"), (3, "root3")]

/-- C9 witness example: a relative polygon path. -/
def c9RelPath : PolyPath := { isAbsolute := false, path := "poly.csv" }

/-- C9 witness example: the provider built from the relative path. -/
def c9Prov : EnsemblePolygonProvider :=
  { layerName := "Containment Polygon", layerId := "license-boundary-layer",
    layerColor := [0, 172, 0, 120],
    absolutePolygon := none,
    perRealPolygons := some
      [ (1, some (.polygon [[[0, 0], [1, 0], [0, 1]]]))
      , (3, none) ] }

/-!
## Theorems
-/

/-- A float that Python-compares equal to `1.0` divides finite values
trivially. -/
lemma pfDiv_of_beq_one (f : PyFloat) (hb : pfBeq f (.finite 1) = true)
    (a : ℚ) : pfDiv (.finite a) f = .finite a := by
  cases f with
  | finite q =>
    have hq : q = 1 := by simpa [pfBeq] using hb
    subst hq
    simp [pfDiv]
  | inf => simp [pfBeq] at hb
  | neginf => simp [pfBeq] at hb
  | nan => simp [pfBeq] at hb

/-- C5: for a migration-time attribute `derive_surface_address` always
succeeds with a `None` date, regardless of the caller-supplied date and of
the number of realizations; and for a non-contour, non-migration-time
attribute with exactly one requested realization it returns the Simulated
variant carrying that realization and the unchanged caller date. -/
theorem c5_migration_time_date_none (surfaceName : String)
    (attr : MapAttribute) (date : Option String) (realization : List Int)
    (names : MapAttribute → String) (statistic : String)
    (cd : Option ContourData) :
    ((attr = .migration_time_sgas ∨ attr = .migration_time_amfg) →
      addressDate (deriveSurfaceAddress surfaceName attr date realization
        names statistic cd) = some none)
    ∧ (∀ r : Int,
        attr ≠ .sgas_plume → attr ≠ .amfg_plume →
        attr ≠ .migration_time_sgas → attr ≠ .migration_time_amfg →
        deriveSurfaceAddress surfaceName attr date [r] names statistic cd
          = .ok (.simulated { «attribute» := names attr, name := surfaceName,
                              datestr := date, realization := r })) := by
  constructor
  · rintro (rfl | rfl) <;>
      match realization with
      | [] => rfl
      | [r] => rfl
      | a :: b :: rest => rfl
  · intro r h1 h2 h3 h4
    have hplume : ¬(attr = .sgas_plume ∨ attr = .amfg_plume) := by tauto
    have hmig : ¬(attr = .migration_time_sgas ∨ attr = .migration_time_amfg) := by
      tauto
    simp only [deriveSurfaceAddress, if_neg hplume, if_neg hmig]

/-- C5 witness: migration-time attribute with a caller date and three
realizations yields a `None` date; max-saturation with one realization
yields the Simulated variant with that realization and the date kept. -/
theorem c5_migration_time_date_none_witness :
    addressDate (deriveSurfaceAddress "surf" .migration_time_sgas
      (some "2030-01-01") [1, 2, 3] defaultMapAttributeNames "Mean" none)
      = some none
    ∧ deriveSurfaceAddress "surf" .max_sgas (some "2020-01-01") [5]
        defaultMapAttributeNames "Mean" none
      = .ok (.simulated
          { «attribute» := defaultMapAttributeNames .max_sgas,
            name := "surf", datestr := some "2020-01-01",
            realization := 5 }) :=
  ⟨(c5_migration_time_date_none "surf" .migration_time_sgas
      (some "2030-01-01") [1, 2, 3] defaultMapAttributeNames "Mean" none).1
      (Or.inl rfl),
   (c5_migration_time_date_none "surf" .max_sgas (some "2020-01-01") [1]
      defaultMapAttributeNames "Mean" none).2 5
      (by decide) (by decide) (by decide) (by decide)⟩

/-- C6: for a plume/contour attribute (with its required date present)
`derive_surface_address` returns the Truncated variant for any realization
list, including a singleton, carrying the basis attribute resolved through
the attribute-name mapping and the contour threshold and smoothing, each
defaulting to 0 when `contour_data` is absent. -/
theorem c6_contour_truncated (surfaceName : String) (attr : MapAttribute)
    (d : String) (realization : List Int) (names : MapAttribute → String)
    (statistic : String) (cd : Option ContourData)
    (h : attr = .sgas_plume ∨ attr = .amfg_plume) :
    deriveSurfaceAddress surfaceName attr (some d) realization names
      statistic cd
      = .ok (.truncated
          { name := surfaceName
          , datestr := d
          , realizations := realization
          , basis_attribute :=
              names (if attr = .sgas_plume then .max_sgas else .max_amfg)
          , threshold := contourThreshold cd
          , smoothing := contourSmoothing cd }) := by
  rcases h with rfl | rfl <;> rfl

/-- C6 witness: a plume attribute with exactly one realization still
yields the Truncated variant; with `contour_data` absent the threshold and
smoothing default to 0. -/
theorem c6_contour_truncated_witness :
    deriveSurfaceAddress "surf" .sgas_plume (some "2030-01-01") [5]
      defaultMapAttributeNames "P10" none
      = .ok (.truncated
          { name := "surf", datestr := "2030-01-01", realizations := [5],
            basis_attribute := defaultMapAttributeNames
              (if MapAttribute.sgas_plume = .sgas_plume
               then .max_sgas else .max_amfg),
            threshold := contourThreshold none,
            smoothing := contourSmoothing none }) :=
  c6_contour_truncated "surf" .sgas_plume "2030-01-01" [5]
    defaultMapAttributeNames "P10" none (Or.inl rfl)

/-- C10: for every volume scale `extract_condensed_dataframe` leaves the
amounts unscaled (its branch tests only the two mass members), while
`extract_dataframe` divides the amounts by the `_find_scale_factor`
factor; on a concrete table the two views disagree for the
volume-normalize scale. -/
theorem c10_volume_scales_diverge :
    (∀ (v : Co2VolumeScale) (t : ContainmentTable),
       extractCondensedDataframe t (.volume v)
         = (condensedRows t).map ContainmentRow.toScaled)
    ∧ (∀ (v : Co2VolumeScale) (t : ContainmentTable) (r : Int),
       (extractDataframe t r (.volume v)).map (fun row => row.amount)
         = (t.rows.filter (fun row => row.real == r)).map
             (fun row => pfDiv (.finite row.amount)
               (findScaleFactor t (.volume v))))
    ∧ ((extractCondensedDataframe c10Table
          (.volume .normalize)).map (fun row => row.amount)
        ≠ (extractDataframe c10Table 0
            (.volume .normalize)).map (fun row => row.amount)) := by
  refine ⟨fun v t => ?_, fun v t r => ?_, by decide⟩
  · cases v <;> rfl
  · rw [extractDataframe]
    cases hb : pfBeq (findScaleFactor t (.volume v)) (.finite 1) with
    | true =>
      rw [if_pos rfl]
      rw [List.map_map]
      apply List.map_congr_left
      intro row _
      exact (pfDiv_of_beq_one _ hb row.amount).symm
    | false =>
      rw [if_neg (by simp)]
      rw [List.map_map, List.map_map]
      rfl

/-- C8 counterexample: with an available column set containing neither
convention tuple and no DATE column, the `summary_graphs` resolver raises
a bare AssertionError, not an error listing the available columns. -/
theorem c8_counterexample :
    columnSubsetUnsmryGraphs ["FOO"] = .error PyErr.assertionError
    ∧ PyErr.assertionError ≠ PyErr.keyError ["FOO"] := by decide

/-- C8 (amended): both resolvers try the PFLOTRAN tuple before the Eclipse
tuple and return the first tuple fully contained in the available set; when
neither is contained, the `unsmry_data_provider` resolver raises a KeyError
listing the available columns, and the `summary_graphs` resolver does the
same except that it raises a bare AssertionError when DATE is absent. -/
theorem c8_column_convention (existing : List String) :
    (subsetOf pflotranColumns.values existing = true →
       columnSubsetUnsmry existing = .ok pflotranColumns
       ∧ columnSubsetUnsmryGraphs existing = .ok pflotranColumns)
    ∧ (subsetOf pflotranColumns.values existing = false →
       subsetOf eclipseColumns.values existing = true →
       columnSubsetUnsmry existing = .ok eclipseColumns
       ∧ columnSubsetUnsmryGraphs existing = .ok eclipseColumns)
    ∧ (subsetOf pflotranColumns.values existing = false →
       subsetOf eclipseColumns.values existing = false →
       columnSubsetUnsmry existing = .error (.keyError existing)
       ∧ columnSubsetUnsmryGraphs existing
           = (if existing.contains "DATE"
              then .error (.keyError existing)
              else .error .assertionError)) := by
  refine ⟨fun h1 => ?_, fun h1 h2 => ?_, fun h1 h2 => ?_⟩
  · have hd : existing.contains "DATE" = true := by
      have := List.all_eq_true.mp h1 "DATE" (by decide)
      simpa using this
    rw [columnSubsetUnsmry, if_pos h1, columnSubsetUnsmryGraphs,
      if_pos hd, if_pos h1]
    exact ⟨rfl, rfl⟩
  · have hd : existing.contains "DATE" = true := by
      have := List.all_eq_true.mp h2 "DATE" (by decide)
      simpa using this
    rw [columnSubsetUnsmry, if_neg (by simp [h1]), if_pos h2,
      columnSubsetUnsmryGraphs, if_pos hd, if_neg (by simp [h1]), if_pos h2]
    exact ⟨rfl, rfl⟩
  · rw [columnSubsetUnsmry, if_neg (by simp [h1]), if_neg (by simp [h2]),
      columnSubsetUnsmryGraphs]
    refine ⟨rfl, ?_⟩
    cases hd : existing.contains "DATE" with
    | true => simp [h1, h2]
    | false => simp

/-- C8 witness: a set holding exactly the Eclipse columns plus an extra
unrelated column resolves to the Eclipse convention in both resolvers. -/
theorem c8_column_convention_witness :
    columnSubsetUnsmry ["DATE", "FWCD", "FGCDI", "FGCDM", "EXTRA"]
      = .ok eclipseColumns
    ∧ columnSubsetUnsmryGraphs ["DATE", "FWCD", "FGCDI", "FGCDM", "EXTRA"]
      = .ok eclipseColumns :=
  (c8_column_convention ["DATE", "FWCD", "FGCDI", "FGCDM", "EXTRA"]).2.1
    (by decide) (by decide)

/-- Dividing a finite value by a finite zero gives the signed-infinity
result. -/
lemma pfDiv_finite_zero (a : ℚ) :
    pfDiv (.finite a) (.finite 0) = divByZero a := by
  simp [pfDiv, divByZero]

/-- C1 counterexample: with the reference realization's last summary total
equal to zero, `generate_summary_figure` does not fail; it silently embeds
an infinite percentage error in the produced figure. -/
theorem c1_counterexample :
    figTotalErr (generateSummaryFigure c1Pu (Co2Scale.mass .kg) c1Tc)
      = some PyFloat.inf := by decide

/-- C1 (amended): the error-percentage computation contains no zero test:
a zero summary value yields +inf (nan when the containment value is zero
too), and on a concrete dataset with zero final summary total the figure
is produced, with an infinite percentage embedded, instead of failing. -/
theorem c1_zero_summary_inf :
    (∀ c : ℚ, lastErrPercentage (.finite c) (.finite 0)
        = if c = 0 then PyFloat.nan else PyFloat.inf)
    ∧ figTotalErr (generateSummaryFigure c1Pu (Co2Scale.mass .kg) c1Tc)
        = some PyFloat.inf := by
  constructor
  · intro c
    by_cases hc : c = 0
    · subst hc
      simp [lastErrPercentage, pfSub, pfNeg, pfAdd, pfAbs, pfMul, pfDiv,
        pfRound2]
    · have habs : (0 : ℚ) < 100 * |c - 0| := by
        have : (0 : ℚ) < |c| := abs_pos.mpr hc
        simp only [sub_zero]
        linarith
      simp [lastErrPercentage, pfSub, pfNeg, pfAdd, pfAbs, pfMul, pfDiv,
        pfRound2, hc, habs]
  · decide

/-- C2 counterexample: a condensed table whose `total` column maximum is
zero: the normalized scale turns the amount 5 into +inf instead of leaving
it unchanged. -/
theorem c2_counterexample :
    (extractCondensedDataframe c2Table (Co2Scale.mass .normalize)).map
        (fun r => r.amount) = [PyFloat.inf]
    ∧ (condensedRows c2Table).map (fun r => PyFloat.finite r.amount)
        = [PyFloat.finite 5] := by decide

/-- C2 (amended): when the relevant `total` maximum is zero, the
normalized mass scale divides by zero: positive amounts become +inf,
negative amounts -inf, zero amounts nan — the values are not left
unchanged (and no warning exists).  For `extract_condensed_dataframe` the
relevant maximum is over the condensed rows; for `extract_dataframe` it is
over the whole table. -/
theorem c2_normalize_zero_max (t : ContainmentTable) (r0 : Int)
    (h1 : condensedTotalsMax t = PyFloat.finite 0)
    (h2 : findScaleFactor t (Co2Scale.mass .normalize) = PyFloat.finite 0) :
    ((extractCondensedDataframe t (Co2Scale.mass .normalize)).map
        (fun r => r.amount)
      = (condensedRows t).map (fun r => divByZero r.amount))
    ∧ ((extractDataframe t r0 (Co2Scale.mass .normalize)).map
        (fun r => r.amount)
      = (t.rows.filter (fun r => r.real == r0)).map
          (fun r => divByZero r.amount)) := by
  constructor
  · simp only [extractCondensedDataframe, h1, List.map_map]
    apply List.map_congr_left
    intro r _
    exact pfDiv_finite_zero r.amount
  · simp only [extractDataframe, h2]
    have hb : pfBeq (PyFloat.finite 0) (.finite 1) = false := by decide
    rw [hb]
    simp only [Bool.false_eq_true, if_false, List.map_map]
    apply List.map_congr_left
    intro r _
    exact pfDiv_finite_zero r.amount

/-- C2 witness: the amended statement evaluated on the concrete all-zero
-total table. -/
theorem c2_normalize_zero_max_witness :
    ((extractCondensedDataframe c2Table (Co2Scale.mass .normalize)).map
        (fun r => r.amount)
      = (condensedRows c2Table).map (fun r => divByZero r.amount))
    ∧ ((extractDataframe c2Table 0 (Co2Scale.mass .normalize)).map
        (fun r => r.amount)
      = (c2Table.rows.filter (fun r => r.real == 0)).map
          (fun r => divByZero r.amount)) :=
  c2_normalize_zero_max c2Table 0 (by decide) (by decide)

/-- Setting a non-total column leaves the total column of every row
unchanged. -/
lemma map_get_total_set (df : List UnsmryDfRow) (col : UnsmryCol)
    (hcol : col ≠ .total) (f : UnsmryDfRow → PyFloat) :
    (df.map (fun r => r.set col (f r))).map (fun r => r.get .total)
      = df.map (fun r => r.get .total) := by
  rw [List.map_map]
  apply List.map_congr_left
  intro r _
  cases col with
  | dissolved => rfl
  | trapped => rfl
  | mobile => rfl
  | total => exact absurd rfl hcol

/-- C4 counterexample: `extract_condensed_dataframe` normalizes by the
maximum of the condensed subset (2), not by the maximum over the entire
dataset (8): the value 2 becomes 1 rather than 1/4. -/
theorem c4_counterexample :
    (extractCondensedDataframe c4Table (Co2Scale.mass .normalize)).map
        (fun r => r.amount) = [PyFloat.finite 1]
    ∧ findScaleFactor c4Table (Co2Scale.mass .normalize) = PyFloat.finite 8
    ∧ pfDiv (PyFloat.finite 2) (PyFloat.finite 8) = PyFloat.finite (1/4)
    ∧ PyFloat.finite 1 ≠ PyFloat.finite (1/4) := by decide

/-- C4 (amended): under the normalized mass scale,
`UnsmryDataProvider.extract` and `summary_graphs._read_dataframe` both
divide every amount column by the maximum of the derived total column over
the entire unscaled dataset; `extract_condensed_dataframe` instead divides
the amounts by the maximum of the stored total column over the condensed
(zone == "all" and region == "all") rows only. -/
theorem c4_normalization_denominator :
    (∀ p : UnsmryProviderData,
       unsmryExtract p (.mass .normalize)
         = (unsmryConcat p).map (normRow (unsmryTotalsMax p)))
    ∧ (∀ p : UnsmryProviderData,
       readDataframe p (.mass .normalize)
         = (unsmryConcat p).map (normRow (unsmryTotalsMax p)))
    ∧ (∀ t : ContainmentTable,
       (extractCondensedDataframe t (.mass .normalize)).map
           (fun r => r.amount)
         = (condensedRows t).map
             (fun r => pfDiv (.finite r.amount) (condensedTotalsMax t))) := by
  refine ⟨fun p => ?_, fun p => ?_, fun t => ?_⟩
  · simp only [unsmryExtract, extractScaleStep, List.map_map]
    apply List.map_congr_left
    intro r _
    rfl
  · simp only [readDataframe, scaleColumnStep]
    rw [map_get_total_set _ _ (by decide)]
    rw [map_get_total_set _ _ (by decide)]
    rw [map_get_total_set _ _ (by decide)]
    simp only [List.map_map]
    apply List.map_congr_left
    intro r _
    rfl
  · simp only [extractCondensedDataframe, List.map_map]
    apply List.map_congr_left
    intro r _
    rfl

/-- Unfolding of the list-building loop. -/
lemma distinctAppend_cons (acc : List String) (v : String)
    (vs : List String) :
    distinctAppend acc (v :: vs)
      = distinctAppend (if v ∈ acc then acc else acc ++ [v]) vs := rfl

/-- Values already present in the accumulator can be filtered away without
changing the loop result. -/
lemma distinctAppend_skip_mem (vals : List String) :
    ∀ (acc : List String) (b : String), b ∈ acc →
      distinctAppend acc (vals.filter (fun v => !(v == b)))
        = distinctAppend acc vals := by
  induction vals with
  | nil => intro acc b _; rfl
  | cons v vs ih =>
    intro acc b hb
    by_cases hv : v = b
    · subst hv
      have hcond : (!(v == v)) = false := by simp
      rw [List.filter_cons, hcond]
      simp only [Bool.false_eq_true, if_false]
      rw [distinctAppend_cons, if_pos hb]
      exact ih acc v hb
    · have hcond : (!(v == b)) = true := by simp [hv]
      rw [List.filter_cons, hcond, if_pos rfl]
      rw [distinctAppend_cons, distinctAppend_cons]
      by_cases hm : v ∈ acc
      · simp only [if_pos hm]
        exact ih acc b hb
      · simp only [if_neg hm]
        exact ih (acc ++ [v]) b (by simp [hb])

/-- When no input value equals the accumulator head, the head stays in
front and the loop proceeds on the tail accumulator. -/
lemma distinctAppend_cons_head (b : String) (vals : List String) :
    ∀ acc : List String, (∀ v ∈ vals, v ≠ b) →
      distinctAppend (b :: acc) vals = b :: distinctAppend acc vals := by
  induction vals with
  | nil => intro acc _; rfl
  | cons v vs ih =>
    intro acc h
    have hvb : v ≠ b := h v (List.mem_cons_self v vs)
    rw [distinctAppend_cons, distinctAppend_cons]
    by_cases hm : v ∈ acc
    · rw [if_pos (List.mem_cons_of_mem b hm), if_pos hm]
      exact ih acc (fun w hw => h w (List.mem_cons_of_mem v hw))
    · have hm2 : v ∉ b :: acc := by simp [hvb, hm]
      rw [if_neg hm2, if_neg hm, List.cons_append]
      exact ih (acc ++ [v]) (fun w hw => h w (List.mem_cons_of_mem v hw))

/-- The loop never shrinks the accumulator. -/
lemma distinctAppend_length_le (vals : List String) :
    ∀ acc : List String, acc.length ≤ (distinctAppend acc vals).length := by
  induction vals with
  | nil => intro acc; exact le_refl _
  | cons v vs ih =>
    intro acc
    rw [distinctAppend_cons]
    by_cases hm : v ∈ acc
    · rw [if_pos hm]; exact ih acc
    · rw [if_neg hm]
      calc acc.length ≤ (acc ++ [v]).length := by simp
        _ ≤ _ := ih (acc ++ [v])

/-- The menu-list construct of `get_menu_options` equals the list rule of
the amended claim. -/
lemma menu_list_rule_correct (vals : List String) :
    (if (distinctAppend ["all"] vals).length > 1
     then distinctAppend ["all"] vals else [])
      = menuListRule vals := by
  have hsplit : distinctAppend ["all"] vals
      = "all" :: distinctAppend [] (vals.filter (fun v => !(v == "all"))) := by
    rw [← distinctAppend_skip_mem vals ["all"] "all" (by simp)]
    exact distinctAppend_cons_head "all" _ [] (fun v hv => by
      have hmem := List.of_mem_filter hv
      simpa using hmem)
  by_cases hall : vals.all (fun v => v == "all")
  · have hfe : vals.filter (fun v => !(v == "all")) = [] := by
      rw [List.filter_eq_nil_iff]
      intro a ha
      have h2 := List.all_eq_true.mp hall a ha
      simp only [beq_iff_eq] at h2
      simp [h2]
    rw [hsplit, hfe]
    simp [menuListRule, hall, distinctAppend]
  · have hne : vals.filter (fun v => !(v == "all")) ≠ [] := by
      intro hh
      apply hall
      rw [List.all_eq_true]
      intro a ha
      by_contra hcon
      have hmem : a ∈ vals.filter (fun v => !(v == "all")) :=
        List.mem_filter.mpr ⟨ha, by simpa using hcon⟩
      rw [hh] at hmem
      exact List.not_mem_nil a hmem
    have hlen : ∀ l : List String, l ≠ [] →
        ("all" :: distinctAppend [] l).length > 1 := by
      intro l hl
      cases l with
      | nil => exact absurd rfl hl
      | cons w ws =>
        rw [distinctAppend_cons, if_neg (List.not_mem_nil w),
          List.nil_append]
        have hge := distinctAppend_length_le ws [w]
        simp only [List.length_cons, List.length_singleton] at hge ⊢
        omega
    rw [hsplit, if_pos (hlen _ hne), menuListRule, if_neg hall]

/-- C7 counterexample: a table whose inspected realization has the single
distinct zone value "z1" (and the single region value "all"): the zones
list comes back as ["all", "z1"], not empty. -/
theorem c7_counterexample :
    getMenuOptions c7Table = .ok
      { zones := ["all", "z1"], regions := [],
        phases := ["total", "gas", "aqueous"] }
    ∧ (c7Table.rows.map (fun row => row.zone)) = ["z1"]
    ∧ (["all", "z1"] : List String) ≠ [] := by decide

/-- C7 (amended): the zones list is empty exactly when every zone value of
the inspected realization equals "all" (so also when no rows exist);
otherwise it is "all" followed by the distinct non-"all" zone values in
first-appearance order (for any number N greater or equal to 1 of them); the same rule
holds for regions, and phases follow the free-gas test. -/
theorem c7_menu_options_rule (t : ContainmentTable) (r0 : Int)
    (rs : List Int) (hreals : t.reals = r0 :: rs)
    (hcols : requiredContainmentColumns.all
      (fun c => t.columnNames.contains c) = true) :
    getMenuOptions t = .ok
      { zones := menuListRule ((firstRealRows t r0).map (fun row => row.zone))
      , regions :=
          menuListRule ((firstRealRows t r0).map (fun row => row.region))
      , phases :=
          if ((firstRealRows t r0).map (fun row => row.phase)).contains
              "free_gas"
          then ["total", "free_gas", "trapped_gas", "aqueous"]
          else ["total", "gas", "aqueous"] } := by
  have hmiss : requiredContainmentColumns.filter
      (fun c => !(t.columnNames.contains c)) = [] := by
    rw [List.filter_eq_nil_iff]
    intro c hc
    have h2 := List.all_eq_true.mp hcols c hc
    simp at h2 ⊢
    exact h2
  simp only [getMenuOptions, hreals, hmiss, List.isEmpty_nil, if_true,
    firstRealRows, menu_list_rule_correct]

/-- C7 witness: on a table with zones all, z1, z2 and a single region the
menu options follow the amended rule. -/
theorem c7_menu_options_rule_witness :
    getMenuOptions c7wTable = .ok
      { zones :=
          menuListRule ((firstRealRows c7wTable 0).map (fun row => row.zone))
      , regions :=
          menuListRule ((firstRealRows c7wTable 0).map (fun row => row.region))
      , phases :=
          if ((firstRealRows c7wTable 0).map (fun row => row.phase)).contains
              "free_gas"
          then ["total", "free_gas", "trapped_gas", "aqueous"]
          else ["total", "gas", "aqueous"] } :=
  c7_menu_options_rule c7wTable 0 [] rfl (by decide)

/-- C3 counterexample: datasets whose only common realization is 2 (the
summary has realizations 1 and 2, the containment table only 2).  The
spec's prescribed reference is 2, but the code takes the minimum over the
summary realizations alone (1) and then fails with an IndexError on the
empty containment selection instead of computing the errors from
realization 2's rows. -/
theorem c3_counterexample :
    specReferenceRealization (readDataframe c3Pu (Co2Scale.mass .kg))
        (extractCondensedDataframe c3Tc (Co2Scale.mass .kg)) = .ok 2
    ∧ generateSummaryFigure c3Pu (Co2Scale.mass .kg) c3Tc
        = .error PyErr.indexError := by decide

/-- C3 (amended): the reference realization is the minimum realization ID
of the summary dataframe alone; when each last-value selection for that
realization succeeds in both sources (and every containment phase is
known), the figure is produced with the three percentage errors computed
from that realization's rows in each source.  (When that realization has
no rows in the containment data, the computation instead fails with an
IndexError, as the counterexample shows.) -/
theorem c3_reference_is_min_summary_real (pu : UnsmryProviderData)
    (scale : Co2Scale) (tc : ContainmentTable) (cols : ColumnNames)
    (m : Int) (ut um ud ct cm cd : PyFloat)
    (hcols : columnSubsetUnsmryGraphs pu.columnNames = .ok cols)
    (hmin : listMinInt ((readDataframe pu scale).map (fun r => r.real))
      = .ok m)
    (hut : unsmryLastOf (readDataframe pu scale) m .total = .ok ut)
    (hum : unsmryLastOf (readDataframe pu scale) m .mobile = .ok um)
    (hud : unsmryLastOf (readDataframe pu scale) m .dissolved = .ok ud)
    (hct : containmentLastOf (extractCondensedDataframe tc scale) m "total"
      = .ok ct)
    (hcm : containmentLastOf (extractCondensedDataframe tc scale) m
      "free_gas" = .ok cm)
    (hcd : containmentLastOf (extractCondensedDataframe tc scale) m
      "aqueous" = .ok cd)
    (hph : (extractCondensedDataframe tc scale).all
      (fun r => phaseKnown r.phase) = true) :
    generateSummaryFigure pu scale tc = .ok
      { dfUnsmry := readDataframe pu scale
      , dfContainment := extractCondensedDataframe tc scale
      , totalErrPct := lastErrPercentage ct ut
      , mobileErrPct := lastErrPercentage cm um
      , dissolvedErrPct := lastErrPercentage cd ud } := by
  simp only [generateSummaryFigure, hcols, hmin, hut, hum, hud, hct, hcm,
    hcd, hph, if_true]

/-- C3 witness: on datasets holding realizations 1 and 2 in both sources,
the figure is built from realization 1 (the summary minimum), with the
percentage errors computed from realization 1's last rows. -/
theorem c3_reference_is_min_summary_real_witness :
    generateSummaryFigure c3wPu (Co2Scale.mass .kg) c3wTc = .ok
      { dfUnsmry := readDataframe c3wPu (Co2Scale.mass .kg)
      , dfContainment := extractCondensedDataframe c3wTc (Co2Scale.mass .kg)
      , totalErrPct := lastErrPercentage (.finite 7) (.finite 6)
      , mobileErrPct := lastErrPercentage (.finite 4) (.finite 3)
      , dissolvedErrPct := lastErrPercentage (.finite 2) (.finite 1) } :=
  c3_reference_is_min_summary_real c3wPu (Co2Scale.mass .kg) c3wTc
    pflotranColumns 1 (.finite 6) (.finite 3) (.finite 1) (.finite 7)
    (.finite 4) (.finite 2) (by decide) (by decide) (by decide) (by decide)
    (by decide) (by decide) (by decide) (by decide) (by decide)

/-- The entries produced by the per-realization comprehension: the first
matching realization root determines the parsed file. -/
lemma mapEntries_assoc (fs : String → Option Csv) (polyRel : String) :
    ∀ (rp : List (Int × String)) (l : List (Int × Option GeoJsonFC))
      (i : Int) (d : String),
      mapEntries fs polyRel rp = .ok l →
      rp.find? (fun q => q.1 == i) = some (i, d) →
      ∃ g, parsePolygonFile fs (joinPath d polyRel) = .ok g
        ∧ assocGet l i = some g := by
  intro rp
  induction rp with
  | nil =>
    intro l i d _ hfind
    simp [List.find?] at hfind
  | cons a rest ih =>
    intro l i d hmap hfind
    cases hpe : parsePolygonFile fs (joinPath a.2 polyRel) with
    | error e =>
      rw [mapEntries, hpe] at hmap
      cases hmap
    | ok g =>
      rw [mapEntries, hpe] at hmap
      cases hrest : mapEntries fs polyRel rest with
      | error e =>
        rw [hrest] at hmap
        cases hmap
      | ok tl =>
        rw [hrest] at hmap
        cases hmap
        cases hai : (a.1 == i) with
        | true =>
          simp only [List.find?, hai] at hfind
          have ha : a = (i, d) := by
            cases hfind
            rfl
          refine ⟨g, ?_, ?_⟩
          · rw [← hpe, ha]
          · simp only [assocGet, List.find?, hai]
            rfl
        | false =>
          simp only [List.find?, hai] at hfind
          obtain ⟨g2, hg2, hget⟩ := ih tl i d hrest hfind
          refine ⟨g2, hg2, ?_⟩
          simp only [assocGet, List.find?, hai]
          simpa [assocGet] using hget

/-- C9 counterexample: a provider constructed from an absolute path whose
file is missing: construction succeeds with both internal fields `None`,
and `geojson_layer` then raises an AttributeError instead of returning a
layer (or `None`) for realization 1. -/
theorem c9_counterexample :
    c9AbsProvider = .ok
      { layerName := "Hazardous Polygon",
        layerId := "hazardous-boundary-layer",
        layerColor := [200, 0, 0, 120],
        absolutePolygon := none, perRealPolygons := none }
    ∧ layerOfProvider c9AbsProvider 1 = .error PyErr.attributeError := by
  decide

/-- C9 (amended): (a) whenever the stored absolute polygon is present, the
layer is identical for every realization and reuses that single geometry;
(b) an absolute path whose file is missing yields a provider whose
`geojson_layer` raises AttributeError for every realization; (c) under a
relative path, a realization whose file is absent (OSError) maps to a
`None` layer without raising, while (d) a realization whose file parses
yields the geometry layer. -/
theorem c9_polygon_provider_behaviour :
    (∀ (p : EnsemblePolygonProvider) (g : GeoJsonFC) (r1 r2 : Int),
       p.absolutePolygon = some g →
       geojsonLayer p r1 = geojsonLayer p r2
       ∧ geojsonLayer p r1 = .ok (some (mkGeoJsonLayer p g)))
    ∧ (∀ (fs : String → Option Csv) (rp : List (Int × String))
         (pp : PolyPath) (nm idv : String) (col : List Int)
         (p : EnsemblePolygonProvider),
       pp.isAbsolute = true → fs pp.path = none →
       mkEnsemblePolygonProvider fs rp pp nm idv col = .ok p →
       ∀ r : Int, geojsonLayer p r = .error PyErr.attributeError)
    ∧ (∀ (fs : String → Option Csv) (rp : List (Int × String))
         (pp : PolyPath) (nm idv : String) (col : List Int)
         (p : EnsemblePolygonProvider) (i : Int) (d : String),
       pp.isAbsolute = false →
       mkEnsemblePolygonProvider fs rp pp nm idv col = .ok p →
       rp.find? (fun q => q.1 == i) = some (i, d) →
       fs (joinPath d pp.path) = none →
       geojsonLayer p i = .ok none)
    ∧ (∀ (fs : String → Option Csv) (rp : List (Int × String))
         (pp : PolyPath) (nm idv : String) (col : List Int)
         (p : EnsemblePolygonProvider) (i : Int) (d : String)
         (g : GeoJsonFC),
       pp.isAbsolute = false →
       mkEnsemblePolygonProvider fs rp pp nm idv col = .ok p →
       rp.find? (fun q => q.1 == i) = some (i, d) →
       parsePolygonFile fs (joinPath d pp.path) = .ok (some g) →
       geojsonLayer p i = .ok (some (mkGeoJsonLayer p g))) := by
  refine ⟨?_, ?_, ?_, ?_⟩
  · intro p g r1 r2 habs
    rw [geojsonLayer, geojsonLayer, habs]
    exact ⟨rfl, rfl⟩
  · intro fs rp pp nm idv col p hpp hfs hmk r
    have hparse : parsePolygonFile fs pp.path = .ok none := by
      rw [parsePolygonFile, hfs]
    rw [mkEnsemblePolygonProvider, if_pos hpp, hparse] at hmk
    cases hmk
    rfl
  · intro fs rp pp nm idv col p i d hpp hmk hfind hfs
    rw [mkEnsemblePolygonProvider, if_neg (by simp [hpp])] at hmk
    cases hmap : mapEntries fs pp.path rp with
    | error e =>
      rw [hmap] at hmk
      cases hmk
    | ok l =>
      rw [hmap] at hmk
      cases hmk
      have hparse : parsePolygonFile fs (joinPath d pp.path) = .ok none := by
        rw [parsePolygonFile, hfs]
      obtain ⟨g, hg, hget⟩ := mapEntries_assoc fs pp.path rp l i d hmap hfind
      rw [hparse] at hg
      cases hg
      rw [geojsonLayer]
      simp only [hget]
      rfl
  · intro fs rp pp nm idv col p i d g hpp hmk hfind hparse
    rw [mkEnsemblePolygonProvider, if_neg (by simp [hpp])] at hmk
    cases hmap : mapEntries fs pp.path rp with
    | error e =>
      rw [hmap] at hmk
      cases hmk
    | ok l =>
      rw [hmap] at hmk
      cases hmk
      obtain ⟨g2, hg2, hget⟩ := mapEntries_assoc fs pp.path rp l i d hmap
        hfind
      rw [hparse] at hg2
      cases hg2
      rw [geojsonLayer]
      simp only [hget]
      rfl

/-- C9 witness: under a relative path, realization 3 (file missing) maps
to `None` without raising, while realization 1 (file present) yields a
geometry layer. -/
theorem c9_polygon_provider_behaviour_witness :
    geojsonLayer c9Prov 3 = .ok none
    ∧ geojsonLayer c9Prov 1
      = .ok (some (mkGeoJsonLayer c9Prov
          (.polygon [[[0, 0], [1, 0], [0, 1]]]))) :=
  ⟨c9_polygon_provider_behaviour.2.2.1 c9Fs c9Rp c9RelPath
      "Containment Polygon" "license-boundary-layer" [0, 172, 0, 120]
      c9Prov 3 "root3" rfl (by decide) (by decide) (by decide),
   c9_polygon_provider_behaviour.2.2.2 c9Fs c9Rp c9RelPath
      "Containment Polygon" "license-boundary-layer" [0, 172, 0, 120]
      c9Prov 1 "root1" (.polygon [[[0, 0], [1, 0], [0, 1]]]) rfl
      (by decide) (by decide) (by decide)⟩

end Co2Spec
